import Mathlib

/-!
Shallow embedding of the acquisition/pacing core of the airbnb-demands-research
crawler, with theorems checking the natural-language specification against it.

Modelled modules:
- crawler/rate_limiter.py : BlockType, RequestStats, RateLimiter
  (wait, report_success, report_failure, detect_block)
- crawler/proxy_manager.py : ProxyState, ProxyManager
  (get_proxy, report_success, report_blocked, _rotate)
- crawler/airbnb_client.py : the _request retry loop and the persistedQuery
  extensions of search/calendar/detail requests
- crawler/api_key_extractor.py : _load_cache, _save_cache, get_operation_hash
- crawler/search_crawler.py : crawl_station request behaviour

Wall-clock times and the float delay multiplier are modelled as rationals.
Python strings are modelled as lists of characters. Calls to time.time()
are modelled by explicit clock arguments; sleeping changes no state and is
not modelled.
-/

/-- Substring test: `containsSub pat s` is true iff `pat` occurs as a
contiguous run inside `s`.  Models the Python operator `pat in s`. -/
def startsWithSub : List Char → List Char → Bool
  | [], _ => true
  | _ :: _, [] => false
  | a :: as, b :: bs => a == b && startsWithSub as bs

/-- Occurrence of `pat` anywhere in `s` (Python `in` on strings). -/
def containsSub (pat : List Char) : List Char → Bool
  | [] => startsWithSub pat []
  | s@(_ :: rest) => startsWithSub pat s || containsSub pat rest

/-- Block taxonomy of crawler/rate_limiter.py (class BlockType). -/
inductive BlockType
  | none
  | rate_limit
  | forbidden
  | captcha
  | skeleton
  | server_error
deriving DecidableEq, Repr

/-- Request statistics of crawler/rate_limiter.py (class RequestStats). -/
structure RequestStats where
  total : Nat := 0
  success : Nat := 0
  failed : Nat := 0
  blocked : Nat := 0
  consecutive_failures : Nat := 0
  hourly_count : Nat := 0
  daily_count : Nat := 0
  hour_start : ℚ := 0
  day_start : ℚ := 0
deriving DecidableEq, Repr

/-- State of crawler/rate_limiter.py (class RateLimiter): tier knobs,
statistics, the adaptive delay multiplier and the circuit breaker. -/
structure RateLimiter where
  delay_base : ℚ := 7
  max_per_hour : Nat := 50
  daily_limit : Nat := 800
  stats : RequestStats := {}
  multiplier : ℚ := 1
  circuit_open : Bool := false
  circuit_open_until : ℚ := 0
  half_open_count : Nat := 0
deriving DecidableEq, Repr

namespace RateLimiter

/-- CB_FAILURE_THRESHOLD in rate_limiter.py. -/
def CB_FAILURE_THRESHOLD : Nat := 5

/-- CB_OPEN_DURATION in rate_limiter.py (seconds). -/
def CB_OPEN_DURATION : ℚ := 300

/-- CB_HALF_OPEN_REQUESTS in rate_limiter.py. -/
def CB_HALF_OPEN_REQUESTS : Nat := 2

/-- Fresh limiter: RateLimiter.__init__ at wall-clock time t0 (both window
start stamps are time.time() at construction). -/
def init (delay_base : ℚ) (max_per_hour daily_limit : Nat) (t0 : ℚ) : RateLimiter :=
  { delay_base := delay_base
    max_per_hour := max_per_hour
    daily_limit := daily_limit
    stats := { hour_start := t0, day_start := t0 } }

/-- Circuit-breaker phase at the top of RateLimiter.wait(): when the
circuit is open, sleep out any remainder (consuming one clock reading for
the remaining-time computation), then clear the open flag and set the
half-open counter to 0.  Returns the state with the index of the next
unused clock reading. -/
def waitCircuitPhase (s : RateLimiter) : RateLimiter × Nat :=
  if s.circuit_open then
    ({ s with circuit_open := false, half_open_count := 0 }, 1)
  else (s, 0)

/-- Window/limit phase of RateLimiter.wait() (everything after the circuit
check), starting at clock reading k. -/
def waitWindowPhase (s : RateLimiter) (clock : Nat → ℚ) (k : Nat) : RateLimiter :=
  let now := clock k
  let k := k + 1
  -- Hourly window elapsed: reset_hourly (count := 0, hour_start := time.time()).
  let (s, k) :=
    if 3600 ≤ now - s.stats.hour_start then
      ({ s with stats := { s.stats with hourly_count := 0, hour_start := clock k } }, k + 1)
    else (s, k)
  -- Daily window elapsed: reset_daily.
  let (s, k) :=
    if 86400 ≤ now - s.stats.day_start then
      ({ s with stats := { s.stats with daily_count := 0, day_start := clock k } }, k + 1)
    else (s, k)
  -- Hourly cap: sleep for the remainder (when positive) and reset_hourly.
  let (s, k) :=
    if s.max_per_hour ≤ s.stats.hourly_count then
      if 0 < 3600 - (now - s.stats.hour_start) then
        ({ s with stats := { s.stats with hourly_count := 0, hour_start := clock k } }, k + 1)
      else (s, k)
    else (s, k)
  -- Daily cap: sleep and reset_daily (no positivity guard in the source).
  let (s, _) :=
    if s.daily_limit ≤ s.stats.daily_count then
      ({ s with stats := { s.stats with daily_count := 0, day_start := clock k } }, k + 1)
    else (s, k)
  -- Adaptive-delay sleep, then counter increments.
  { s with stats := { s.stats with
      total := s.stats.total + 1
      hourly_count := s.stats.hourly_count + 1
      daily_count := s.stats.daily_count + 1 } }

/-- RateLimiter.wait().  The clock function supplies successive time.time()
readings; sleeps change no state.  Reading 0 is consumed by the circuit
remaining-time check when the circuit is open; the next reading is the
`now` used by the window logic; further readings stamp window resets. -/
def wait (s : RateLimiter) (clock : Nat → ℚ) : RateLimiter :=
  let (s, k) := s.waitCircuitPhase
  waitWindowPhase s clock k

/-- RateLimiter.report_success(). -/
def report_success (s : RateLimiter) : RateLimiter :=
  let s := { s with stats := { s.stats with
      success := s.stats.success + 1
      consecutive_failures := 0 } }
  let s :=
    if 1 < s.multiplier then
      { s with multiplier := max 1 (s.multiplier * (9 / 10)) }
    else s
  if 0 < s.half_open_count then
    let c := s.half_open_count + 1
    if CB_HALF_OPEN_REQUESTS ≤ c then { s with half_open_count := 0 }
    else { s with half_open_count := c }
  else s

/-- Delay-multiplier factor applied on a recognized block
(the if/elif chain in report_failure). -/
def blockFactor : BlockType → ℚ
  | .rate_limit => 2
  | .forbidden => 3
  | .captcha => 4
  | _ => 3 / 2

/-- RateLimiter.report_failure(block_type), at wall-clock time now. -/
def report_failure (s : RateLimiter) (block_type : BlockType) (now : ℚ) : RateLimiter :=
  let s := { s with stats := { s.stats with
      failed := s.stats.failed + 1
      consecutive_failures := s.stats.consecutive_failures + 1 } }
  let s :=
    if block_type ≠ BlockType.none then
      { s with
        stats := { s.stats with blocked := s.stats.blocked + 1 }
        multiplier := min (s.multiplier * blockFactor block_type) 10 }
    else s
  if CB_FAILURE_THRESHOLD ≤ s.stats.consecutive_failures then
    { s with
      circuit_open := true
      circuit_open_until := now + CB_OPEN_DURATION
      stats := { s.stats with consecutive_failures := 0 } }
  else s

/-- RateLimiter.detect_block(status_code, response_text). -/
def detect_block (status_code : Nat) (response_text : List Char) : BlockType :=
  if status_code = 429 then .rate_limit
  else if status_code = 403 then .forbidden
  else if status_code = 503 then .server_error
  else if status_code = 200 then
    let text_lower := (response_text.take 5000).map Char.toLower
    if ["captcha", "recaptcha", "hcaptcha", "challenge-platform"].any
        (fun kw => containsSub kw.data text_lower) then .captcha
    else if ["pardon our interruption", "access denied"].any
        (fun kw => containsSub kw.data text_lower) then .forbidden
    else if response_text.length < 100 ∧ ¬ (containsSub "error".data text_lower = true) then
      .skeleton
    else .none
  else .none

end RateLimiter

/-- Per-proxy runtime record of crawler/proxy_manager.py (class ProxyState). -/
structure ProxyState where
  url : List Char
  request_count : Nat := 0
  total_requests : Nat := 0
  blocked_count : Nat := 0
  last_used : ℚ := 0
  cooldown_until : ℚ := 0
  is_healthy : Bool := true
deriving DecidableEq, Repr

namespace ProxyState

/-- ProxyState.mark_blocked(cooldown_seconds) at wall-clock time now. -/
def mark_blocked (p : ProxyState) (cooldown_seconds : ℚ) (now : ℚ) : ProxyState :=
  { p with
    blocked_count := p.blocked_count + 1
    cooldown_until := now + cooldown_seconds
    is_healthy := false }

/-- ProxyState.is_available() at wall-clock time now.  The method mutates
the record (restores is_healthy once the cooldown has elapsed) and returns
the health flag, so the model returns the updated record with the flag. -/
def is_available (p : ProxyState) (now : ℚ) : ProxyState × Bool :=
  let p := if p.cooldown_until < now then { p with is_healthy := true } else p
  (p, p.is_healthy)

end ProxyState

/-- Pool state of crawler/proxy_manager.py (class ProxyManager). -/
structure ProxyManager where
  proxies : List ProxyState := []
  current_index : Nat := 0
  requests_per_rotate : Nat := 30
  block_cooldown : ℚ := 300
deriving DecidableEq, Repr

namespace ProxyManager

/-- ProxyManager.__init__ from a list of (already stripped, non-empty)
proxy URLs. -/
def init (proxy_urls : List (List Char)) (requests_per_rotate : Nat)
    (block_cooldown : ℚ) : ProxyManager :=
  { proxies := proxy_urls.map (fun u => { url := u })
    current_index := 0
    requests_per_rotate := requests_per_rotate
    block_cooldown := block_cooldown }

/-- ProxyManager._rotate(). -/
def rotate (pm : ProxyManager) : ProxyManager :=
  if pm.proxies.length = 0 then pm
  else { pm with current_index := (pm.current_index + 1) % pm.proxies.length }

/-- Body of the while loop in ProxyManager.get_proxy(), with explicit fuel.
Returns none when the fuel runs out (the Python loop would still be
running); some (pm, r) is the loop's exit with the updated pool and the
returned URL (r = none models returning None).  The out-of-range index
branch cannot fire on states the manager itself produces (the cursor is
always reduced modulo the pool size). -/
def getProxyLoop (now : ℚ) : ProxyManager → Nat → Nat → Option (ProxyManager × Option (List Char))
  | _, _, 0 => none
  | pm, attempts, fuel + 1 =>
    if attempts < pm.proxies.length then
      match pm.proxies.get? pm.current_index with
      | Option.none => some (pm, Option.none)
      | some proxy =>
        let (p, avail) := proxy.is_available now
        let pm := { pm with proxies := pm.proxies.set pm.current_index p }
        if avail then
          if pm.requests_per_rotate ≤ p.request_count then
            -- Rotate-threshold branch: reset the window, advance the cursor,
            -- and continue without counting an attempt.
            let pm := { pm with proxies := (pm.proxies.set pm.current_index
              { p with request_count := 0 }) }
            getProxyLoop now pm.rotate attempts fuel
          else
            some ({ pm with proxies := (pm.proxies.set pm.current_index
                { p with
                  request_count := p.request_count + 1
                  total_requests := p.total_requests + 1
                  last_used := now }) },
              some p.url)
        else
          getProxyLoop now pm.rotate (attempts + 1) fuel
    else
      some (pm, Option.none)

/-- Sum of the per-proxy window counters (used to bound the loop). -/
def countSum (ps : List ProxyState) : Nat :=
  (ps.map (·.request_count)).sum

/-- Fuel that lemma getProxyLoop_isSome proves sufficient for the loop. -/
def enoughFuel (pm : ProxyManager) : Nat :=
  pm.proxies.length + countSum pm.proxies + 1

/-- ProxyManager.get_proxy() at wall-clock time now.  Defined through the
fuelled loop with provably sufficient fuel (for a positive rotate
threshold, see getProxyLoop_isSome). -/
def get_proxy (pm : ProxyManager) (now : ℚ) : ProxyManager × Option (List Char) :=
  if pm.proxies.length = 0 then (pm, Option.none)
  else (getProxyLoop now pm 0 (enoughFuel pm)).getD (pm, Option.none)

/-- ProxyManager.report_success(). -/
def report_success (pm : ProxyManager) : ProxyManager :=
  if pm.proxies.length = 0 then pm
  else
    match pm.proxies.get? pm.current_index with
    | Option.none => pm
    | some p =>
      { pm with proxies := pm.proxies.set pm.current_index { p with is_healthy := true } }

/-- ProxyManager.report_blocked() at wall-clock time now. -/
def report_blocked (pm : ProxyManager) (now : ℚ) : ProxyManager :=
  if pm.proxies.length = 0 then pm
  else
    match pm.proxies.get? pm.current_index with
    | Option.none => pm.rotate
    | some p =>
      let pm := { pm with proxies := (pm.proxies.set pm.current_index
        (p.mark_blocked pm.block_cooldown now)) }
      pm.rotate

end ProxyManager

/-- Content of data/.api_credentials.json as read by api_key_extractor.py:
api_key, the operation-name → hash map, and the cached_at stamp. -/
structure CredRecord where
  api_key : List Char := []
  hashes : List (List Char × List Char) := []
  cached_at : ℚ := 0
deriving DecidableEq, Repr

/-- Condition of the credential cache file on disk: absent, present but not
parsable as the expected JSON, or a parsed record. -/
inductive CacheBacking
  | missing
  | unparsable
  | record (r : CredRecord)
deriving DecidableEq, Repr

namespace ApiKeyExtractor

/-- CACHE_MAX_AGE_HOURS in api_key_extractor.py. -/
def CACHE_MAX_AGE_HOURS : ℚ := 72

/-- Function _load_cache() at wall-clock time now: none when the file is
missing, unparsable, older than 72 hours, or has an empty api_key. -/
def load_cache (b : CacheBacking) (now : ℚ) : Option CredRecord :=
  match b with
  | .missing => Option.none
  | .unparsable => Option.none
  | .record r =>
    if CACHE_MAX_AGE_HOURS < (now - r.cached_at) / 3600 then Option.none
    else if r.api_key = [] then Option.none
    else some r

/-- Filesystem operations issued by the extractor, recorded as a trace. -/
inductive FsOp
  | mkdirParents (dir : List Char)
  | writeFile (path : List Char) (content : CredRecord)
  | renameFile (src dst : List Char)
deriving DecidableEq, Repr

/-- Path of the credential cache file (data/.api_credentials.json). -/
def cachePath : List Char := "data/.api_credentials.json".data

/-- Parent directory of the cache file. -/
def cacheDir : List Char := "data".data

/-- Function _save_cache(data) at wall-clock time now: ensures the parent
directory, stamps cached_at with time.time(), and writes the file in place
with a single write_text call.  Returns the trace of filesystem operations
and the stamped record. -/
def save_cache (data : CredRecord) (now : ℚ) : List FsOp × CredRecord :=
  let stamped := { data with cached_at := now }
  ([FsOp.mkdirParents cacheDir, FsOp.writeFile cachePath stamped], stamped)

/-- Function get_operation_hash(operation_name) at wall-clock time now. -/
def get_operation_hash (b : CacheBacking) (now : ℚ) (operation_name : List Char) :
    List Char :=
  match load_cache b now with
  | some r => (r.hashes.lookup operation_name).getD []
  | Option.none => []

end ApiKeyExtractor

/-- Value inside the JSON-encoded extensions query parameter of every API
request: a persistedQuery with a version and a sha256Hash. -/
structure PersistedQuery where
  version : Nat
  sha256Hash : List Char
deriving DecidableEq, Repr

namespace AirbnbClient

/-- SEARCH_OPERATION in airbnb_client.py. -/
def SEARCH_OPERATION : List Char := "StaysSearch".data

/-- CALENDAR_OPERATION in airbnb_client.py. -/
def CALENDAR_OPERATION : List Char := "PdpAvailabilityCalendar".data

/-- LISTING_OPERATION in airbnb_client.py. -/
def LISTING_OPERATION : List Char := "StaysPdpSections".data

/-- The persistedQuery carried by search_stays (extensions parameter). -/
def searchExtensions (b : CacheBacking) (now : ℚ) : PersistedQuery :=
  ⟨1, ApiKeyExtractor.get_operation_hash b now SEARCH_OPERATION⟩

/-- The persistedQuery carried by get_calendar. -/
def calendarExtensions (b : CacheBacking) (now : ℚ) : PersistedQuery :=
  ⟨1, ApiKeyExtractor.get_operation_hash b now CALENDAR_OPERATION⟩

/-- The persistedQuery carried by get_listing_detail. -/
def listingExtensions (b : CacheBacking) (now : ℚ) : PersistedQuery :=
  ⟨1, ApiKeyExtractor.get_operation_hash b now LISTING_OPERATION⟩

/-- Outcome of one HTTP GET inside AirbnbClient._request: a response with
status and body, or a raised transport exception. -/
inductive HttpResult
  | ok (status : Nat) (text : List Char)
  | exn
deriving DecidableEq, Repr

/-- Calls the request loop makes into the rate limiter and the proxy pool,
recorded in program order. -/
inductive ClientAct
  | rlFailure (bt : BlockType)
  | rlSuccess
  | pmBlocked
  | pmSuccess
deriving DecidableEq, Repr

/-- One attempt of the for-loop in AirbnbClient._request, given the proxy
chosen for the attempt, the HTTP outcome, and the JSON decoder.  Returns
the decoded object (some = return from the loop, none = move to the next
attempt) together with the limiter/pool calls of the attempt. -/
def attemptStep {V : Type} (parse : List Char → Option V)
    (proxy : Option (List Char)) (r : HttpResult) : Option V × List ClientAct :=
  match r with
  | .exn => (Option.none, [ClientAct.rlFailure BlockType.none])
  | .ok status text =>
    let block_type := RateLimiter.detect_block status text
    if block_type ≠ BlockType.none then
      (Option.none,
        [ClientAct.rlFailure block_type] ++
          (if proxy.isSome then [ClientAct.pmBlocked] else []))
    else
      -- report_success on the limiter (and the pool when a proxy was used)
      -- happens before json.loads.
      let successActs :=
        [ClientAct.rlSuccess] ++ (if proxy.isSome then [ClientAct.pmSuccess] else [])
      match parse text with
      | some v => (some v, successActs)
      | Option.none => (Option.none, successActs ++ [ClientAct.rlFailure BlockType.none])

/-- The retry loop of AirbnbClient._request: attempts are numbered from i,
with responses and per-attempt proxies supplied by oracles; fuel is the
number of attempts left (max_retries at the top call). -/
def requestLoop {V : Type} (parse : List Char → Option V)
    (resp : Nat → HttpResult) (proxyOf : Nat → Option (List Char)) :
    Nat → Nat → Option V × List ClientAct
  | _, 0 => (Option.none, [])
  | i, fuel + 1 =>
    match attemptStep parse (proxyOf i) (resp i) with
    | (some v, acts) => (some v, acts)
    | (Option.none, acts) =>
      let rest := requestLoop parse resp proxyOf (i + 1) fuel
      (rest.1, acts ++ rest.2)

/-- AirbnbClient._request(url, params, max_retries): the loop from attempt 0.
Exhaustion of the retry budget returns a null result. -/
def request {V : Type} (parse : List Char → Option V)
    (resp : Nat → HttpResult) (proxyOf : Nat → Option (List Char))
    (max_retries : Nat) : Option V × List ClientAct :=
  requestLoop parse resp proxyOf 0 max_retries

end AirbnbClient

/-- One page of a parsed StaysSearch response, at the granularity the
search job consumes it: the extracted listing entries and the
paginationInfo.nextPageCursor field.  (Entry parsing itself is the concern
of _extract_listings and is not at issue here.) -/
structure SearchPage where
  searchResults : List (List Char)
  nextPageCursor : Option (List Char)
deriving DecidableEq, Repr

namespace SearchCrawler

/-- SearchCrawler.crawl_station, modelled over a fetch oracle mapping the
paging cursor passed to search_stays to its response.  The source issues
exactly one search_stays call, with no cursor argument, and either returns
None (null response) or saves the single page and reports its listing
count.  The second component records the cursor argument of every
search_stays call made, in order. -/
def crawl_station (fetch : Option (List Char) → Option SearchPage) :
    Option Nat × List (Option (List Char)) :=
  match fetch Option.none with
  | Option.none => (Option.none, [Option.none])
  | some page => (some page.searchResults.length, [Option.none])

end SearchCrawler

/-! ## Theorems -/

/-- The block-classifier mapping exactly as the specification enumerates it
(section 4.6), written as a decision list in the spec's own clause order,
to be compared with the transcription of the source. -/
def detectBlockSpecMap (status : Nat) (body : List Char) : BlockType :=
  let first5000 := (body.take 5000).map Char.toLower
  if status = 429 then BlockType.rate_limit
  else if status = 403 then BlockType.forbidden
  else if status = 503 then BlockType.server_error
  else if status = 200 ∧
      (containsSub "captcha".data first5000 = true ∨
       containsSub "recaptcha".data first5000 = true ∨
       containsSub "hcaptcha".data first5000 = true ∨
       containsSub "challenge-platform".data first5000 = true) then
    BlockType.captcha
  else if status = 200 ∧
      (containsSub "pardon our interruption".data first5000 = true ∨
       containsSub "access denied".data first5000 = true) then
    BlockType.forbidden
  else if status = 200 ∧ body.length < 100 ∧
      ¬ (containsSub "error".data first5000 = true) then
    BlockType.skeleton
  else BlockType.none

/-- Body consisting of the two characters of an empty JSON object. -/
def emptyObjBody : List Char := [Char.ofNat 123, Char.ofNat 125]

/-- Body of the form of a short JSON error object (13 characters). -/
def errorObjBody : List Char :=
  [Char.ofNat 123, Char.ofNat 34] ++ "error".data ++
    [Char.ofNat 34, ':', Char.ofNat 34, 'x', Char.ofNat 34, Char.ofNat 125]

/-- C7: detect_block is total (it is a function in the model) and equal to
the mapping the specification enumerates: 429 to rate_limit, 403 to
forbidden, 503 to server_error; 200 with a captcha keyword in the first
5000 lower-cased characters to captcha; 200 with a block phrase there to
forbidden; 200 with body shorter than 100 and no occurrence of error to
skeleton; everything else to none.  In particular an empty JSON object
yields skeleton and a short JSON error object yields none. -/
theorem C7_detect_block_is_spec_mapping :
    (∀ status body, RateLimiter.detect_block status body = detectBlockSpecMap status body) ∧
    RateLimiter.detect_block 200 emptyObjBody = BlockType.skeleton ∧
    RateLimiter.detect_block 200 errorObjBody = BlockType.none := by
  refine ⟨?_, by decide, by decide⟩
  intro status body
  unfold RateLimiter.detect_block detectBlockSpecMap
  split_ifs <;> simp_all

lemma waitWindowPhase_circuit_fields (s : RateLimiter) (clock : Nat → ℚ) (k : Nat) :
    (RateLimiter.waitWindowPhase s clock k).circuit_open = s.circuit_open ∧
    (RateLimiter.waitWindowPhase s clock k).half_open_count = s.half_open_count := by
  unfold RateLimiter.waitWindowPhase
  dsimp only
  repeat' split
  all_goals simp

lemma report_success_half_open_zero (s : RateLimiter) (h : s.half_open_count = 0) :
    (s.report_success).half_open_count = 0 := by
  unfold RateLimiter.report_success
  dsimp only
  repeat' split
  all_goals simp_all

/-- Concrete limiter whose circuit is open until time 10. -/
def C1s0 : RateLimiter :=
  { stats := { hour_start := 350, day_start := 350 }
    circuit_open := true
    circuit_open_until := 10 }

/-- Clock stuck at time 400, well past the open window of C1s0. -/
def C1clk : Nat → ℚ := fun _ => 400

/-- C1 counterexample: with the open window elapsed, the wait() call leaves
the half-open trial counter at 0, and the following report_success() leaves
it unchanged, so the remaining trial count (CB_HALF_OPEN_REQUESTS minus the
counter) is still 2 rather than having been decremented to 1 as the claim
requires. -/
theorem C1_counterexample :
    (C1s0.wait C1clk).half_open_count = 0 ∧
    ((C1s0.wait C1clk).report_success).half_open_count
      = (C1s0.wait C1clk).half_open_count ∧
    ¬ (RateLimiter.CB_HALF_OPEN_REQUESTS
        - ((C1s0.wait C1clk).report_success).half_open_count = 1) := by
  have h0 : (C1s0.wait C1clk).half_open_count = 0 := by
    norm_num [RateLimiter.wait, RateLimiter.waitCircuitPhase,
      RateLimiter.waitWindowPhase, C1s0, C1clk]
  refine ⟨h0, ?_, ?_⟩
  · rw [report_success_half_open_zero _ h0, h0]
  · rw [report_success_half_open_zero _ h0]
    norm_num [RateLimiter.CB_HALF_OPEN_REQUESTS]

/-- C1 (amended): after the open window has elapsed, the next wait() closes
the circuit directly and resets the half-open trial counter to 0 (not 2);
since report_success() touches the counter only when it is already
positive, any number of subsequent report_success() calls leave it at 0 and
the trial-counting mechanism never engages. -/
theorem C1_amended (s : RateLimiter) (clock : Nat → ℚ) (h : s.circuit_open = true) :
    (s.wait clock).circuit_open = false ∧
    (s.wait clock).half_open_count = 0 ∧
    ∀ n : Nat, ((RateLimiter.report_success)^[n] (s.wait clock)).half_open_count = 0 := by
  have hw : s.wait clock
      = RateLimiter.waitWindowPhase
          { s with circuit_open := false, half_open_count := 0 } clock 1 := by
    unfold RateLimiter.wait RateLimiter.waitCircuitPhase
    rw [if_pos h]
  have h1 := waitWindowPhase_circuit_fields
    { s with circuit_open := false, half_open_count := 0 } clock 1
  refine ⟨by rw [hw]; exact h1.1, by rw [hw]; exact h1.2, ?_⟩
  intro n
  induction n with
  | zero => rw [Function.iterate_zero_apply, hw]; exact h1.2
  | succ n ih =>
    rw [Function.iterate_succ_apply']
    exact report_success_half_open_zero _ ih

/-- C1 amended witness at the concrete input C1s0 / C1clk (three subsequent
successes). -/
theorem C1_amended_witness :
    (C1s0.wait C1clk).circuit_open = false ∧
    (C1s0.wait C1clk).half_open_count = 0 ∧
    ((RateLimiter.report_success)^[3] (C1s0.wait C1clk)).half_open_count = 0 :=
  ⟨(C1_amended C1s0 C1clk rfl).1, (C1_amended C1s0 C1clk rfl).2.1,
    (C1_amended C1s0 C1clk rfl).2.2 3⟩

/-- C4: from a closed circuit with zero consecutive failures, five
report_failure() calls (at times t1..t5) open the circuit until t5 + 300
and clear the consecutive-failure counter; a sixth call only takes the
counter to 1 and neither re-opens nor moves the open-until deadline. -/
theorem C4_five_failures_open_circuit (s : RateLimiter)
    (_hc : s.circuit_open = false) (h0 : s.stats.consecutive_failures = 0)
    (t1 t2 t3 t4 t5 t6 : ℚ) :
    ((((((s.report_failure BlockType.none t1).report_failure BlockType.none t2
        ).report_failure BlockType.none t3).report_failure BlockType.none t4
        ).report_failure BlockType.none t5).circuit_open = true) ∧
    ((((((s.report_failure BlockType.none t1).report_failure BlockType.none t2
        ).report_failure BlockType.none t3).report_failure BlockType.none t4
        ).report_failure BlockType.none t5).circuit_open_until
      = t5 + RateLimiter.CB_OPEN_DURATION) ∧
    ((((((s.report_failure BlockType.none t1).report_failure BlockType.none t2
        ).report_failure BlockType.none t3).report_failure BlockType.none t4
        ).report_failure BlockType.none t5).stats.consecutive_failures = 0) ∧
    (((((((s.report_failure BlockType.none t1).report_failure BlockType.none t2
        ).report_failure BlockType.none t3).report_failure BlockType.none t4
        ).report_failure BlockType.none t5).report_failure BlockType.none t6
        ).circuit_open_until = t5 + RateLimiter.CB_OPEN_DURATION) ∧
    (((((((s.report_failure BlockType.none t1).report_failure BlockType.none t2
        ).report_failure BlockType.none t3).report_failure BlockType.none t4
        ).report_failure BlockType.none t5).report_failure BlockType.none t6
        ).stats.consecutive_failures = 1) ∧
    (((((((s.report_failure BlockType.none t1).report_failure BlockType.none t2
        ).report_failure BlockType.none t3).report_failure BlockType.none t4
        ).report_failure BlockType.none t5).report_failure BlockType.none t6
        ).circuit_open = true) := by
  simp [RateLimiter.report_failure, RateLimiter.CB_FAILURE_THRESHOLD, h0]

/-- C4 witness at a fresh limiter and concrete times 1..6. -/
theorem C4_witness :
    (((((((RateLimiter.init 7 50 800 0).report_failure BlockType.none 1
        ).report_failure BlockType.none 2).report_failure BlockType.none 3
        ).report_failure BlockType.none 4).report_failure BlockType.none 5
        ).circuit_open = true) ∧
    (((((((RateLimiter.init 7 50 800 0).report_failure BlockType.none 1
        ).report_failure BlockType.none 2).report_failure BlockType.none 3
        ).report_failure BlockType.none 4).report_failure BlockType.none 5
        ).circuit_open_until = 5 + RateLimiter.CB_OPEN_DURATION) :=
  ⟨(C4_five_failures_open_circuit (RateLimiter.init 7 50 800 0) rfl rfl
      1 2 3 4 5 6).1,
    (C4_five_failures_open_circuit (RateLimiter.init 7 50 800 0) rfl rfl
      1 2 3 4 5 6).2.1⟩

/-- One observed call into the limiter: a success report or a failure
report with its block type and wall-clock time. -/
inductive LimiterEvent
  | success
  | failure (bt : BlockType) (now : ℚ)

/-- Apply a sequence of report_success / report_failure calls in order. -/
def runLimiterEvents (s : RateLimiter) : List LimiterEvent → RateLimiter
  | [] => s
  | .success :: rest => runLimiterEvents s.report_success rest
  | .failure bt now :: rest => runLimiterEvents (s.report_failure bt now) rest

lemma report_success_multiplier (s : RateLimiter) :
    (s.report_success).multiplier =
      if 1 < s.multiplier then max 1 (s.multiplier * (9 / 10)) else s.multiplier := by
  unfold RateLimiter.report_success
  dsimp only
  repeat' split
  all_goals simp_all

lemma report_failure_multiplier (s : RateLimiter) (bt : BlockType) (now : ℚ) :
    (s.report_failure bt now).multiplier =
      if bt ≠ BlockType.none then min (s.multiplier * RateLimiter.blockFactor bt) 10
      else s.multiplier := by
  unfold RateLimiter.report_failure
  dsimp only
  repeat' split
  all_goals simp_all

lemma one_le_blockFactor (bt : BlockType) : 1 ≤ RateLimiter.blockFactor bt := by
  cases bt <;> norm_num [RateLimiter.blockFactor]

lemma multiplier_bounds_step_success (s : RateLimiter)
    (h : 1 ≤ s.multiplier ∧ s.multiplier ≤ 10) :
    1 ≤ (s.report_success).multiplier ∧ (s.report_success).multiplier ≤ 10 := by
  rw [report_success_multiplier]
  rcases h with ⟨h1, h2⟩
  split
  · constructor
    · exact le_max_left _ _
    · refine max_le (by norm_num) ?_
      nlinarith
  · exact ⟨h1, h2⟩

lemma multiplier_bounds_step_failure (s : RateLimiter) (bt : BlockType) (now : ℚ)
    (h : 1 ≤ s.multiplier ∧ s.multiplier ≤ 10) :
    1 ≤ (s.report_failure bt now).multiplier ∧
      (s.report_failure bt now).multiplier ≤ 10 := by
  rw [report_failure_multiplier]
  rcases h with ⟨h1, h2⟩
  split
  · constructor
    · refine le_min ?_ (by norm_num)
      have := one_le_blockFactor bt
      nlinarith
    · exact min_le_right _ _
  · exact ⟨h1, h2⟩

/-- C3: for every sequence of report_success / report_failure calls applied
to a freshly constructed limiter (multiplier 1.0), the adaptive delay
multiplier stays inside the interval from 1.0 to 10.0. -/
theorem C3_multiplier_stays_in_interval (delay_base : ℚ)
    (max_per_hour daily_limit : Nat) (t0 : ℚ) (evs : List LimiterEvent) :
    1 ≤ (runLimiterEvents (RateLimiter.init delay_base max_per_hour daily_limit t0)
          evs).multiplier ∧
    (runLimiterEvents (RateLimiter.init delay_base max_per_hour daily_limit t0)
          evs).multiplier ≤ 10 := by
  have step : ∀ (s : RateLimiter) (l : List LimiterEvent),
      1 ≤ s.multiplier ∧ s.multiplier ≤ 10 →
      1 ≤ (runLimiterEvents s l).multiplier ∧ (runLimiterEvents s l).multiplier ≤ 10 := by
    intro s l
    induction l generalizing s with
    | nil => intro h; exact h
    | cons e rest ih =>
      intro h
      cases e with
      | success => exact ih _ (multiplier_bounds_step_success s h)
      | failure bt now => exact ih _ (multiplier_bounds_step_failure s bt now h)
  exact step _ evs (by norm_num [RateLimiter.init])

/-- Concrete credential record used for the C8 counterexample. -/
def C8rec : CredRecord := { api_key := "k".data, hashes := [], cached_at := 0 }

/-- C8 counterexample: at a concrete record and time, the filesystem trace
of _save_cache contains no write to a temporary path followed by a rename
onto the cache file — the save is not write-then-rename (it is a single
direct write to the cache path). -/
theorem C8_counterexample :
    ¬ ∃ (tmp : List Char) (content : CredRecord),
        tmp ≠ ApiKeyExtractor.cachePath ∧
        ApiKeyExtractor.FsOp.writeFile tmp content
          ∈ (ApiKeyExtractor.save_cache C8rec 1000).1 ∧
        ApiKeyExtractor.FsOp.renameFile tmp ApiKeyExtractor.cachePath
          ∈ (ApiKeyExtractor.save_cache C8rec 1000).1 := by
  rintro ⟨tmp, content, _, _, hr⟩
  simp [ApiKeyExtractor.save_cache] at hr

/-- C8 (amended): save stamps the record with the current wall-clock time
as cached_at, but it does not write atomically — it ensures the parent
directory and then writes the credential file in place with a single
direct write, with no temporary file and no rename. -/
theorem C8_amended (data : CredRecord) (now : ℚ) :
    ApiKeyExtractor.save_cache data now =
      ([ApiKeyExtractor.FsOp.mkdirParents ApiKeyExtractor.cacheDir,
        ApiKeyExtractor.FsOp.writeFile ApiKeyExtractor.cachePath
          { data with cached_at := now }],
        { data with cached_at := now }) ∧
    (ApiKeyExtractor.save_cache data now).2.cached_at = now := by
  exact ⟨rfl, rfl⟩

/-- C10: whenever the credential cache is missing, unparsable, expired, or
lacks a hash for the requested operation, get_operation_hash returns the
empty string; and whenever the hash for the respective operation is the
empty string, the search, calendar and detail requests are built with a
persistedQuery extensions value carrying version 1 and that empty
sha256Hash. -/
theorem C10_empty_hash_fallback :
    (∀ (now : ℚ) (op : List Char),
      ApiKeyExtractor.get_operation_hash CacheBacking.missing now op = [] ∧
      ApiKeyExtractor.get_operation_hash CacheBacking.unparsable now op = []) ∧
    (∀ (now : ℚ) (r : CredRecord) (op : List Char),
      ApiKeyExtractor.CACHE_MAX_AGE_HOURS < (now - r.cached_at) / 3600 →
      ApiKeyExtractor.get_operation_hash (CacheBacking.record r) now op = []) ∧
    (∀ (now : ℚ) (r : CredRecord) (op : List Char),
      r.hashes.lookup op = Option.none →
      ApiKeyExtractor.get_operation_hash (CacheBacking.record r) now op = []) ∧
    (∀ (now : ℚ) (b : CacheBacking),
      ApiKeyExtractor.get_operation_hash b now AirbnbClient.SEARCH_OPERATION = [] →
      AirbnbClient.searchExtensions b now = ⟨1, []⟩) ∧
    (∀ (now : ℚ) (b : CacheBacking),
      ApiKeyExtractor.get_operation_hash b now AirbnbClient.CALENDAR_OPERATION = [] →
      AirbnbClient.calendarExtensions b now = ⟨1, []⟩) ∧
    (∀ (now : ℚ) (b : CacheBacking),
      ApiKeyExtractor.get_operation_hash b now AirbnbClient.LISTING_OPERATION = [] →
      AirbnbClient.listingExtensions b now = ⟨1, []⟩) := by
  refine ⟨fun now op => ⟨rfl, rfl⟩, ?_, ?_, ?_, ?_, ?_⟩
  · intro now r op h
    simp [ApiKeyExtractor.get_operation_hash, ApiKeyExtractor.load_cache, h]
  · intro now r op h
    simp only [ApiKeyExtractor.get_operation_hash, ApiKeyExtractor.load_cache]
    split
    · rename_i r' heq
      split_ifs at heq
      simp at heq
      subst heq
      rw [h]
      rfl
    · rfl
  · intro now b h
    unfold AirbnbClient.searchExtensions
    rw [h]
  · intro now b h
    unfold AirbnbClient.calendarExtensions
    rw [h]
  · intro now b h
    unfold AirbnbClient.listingExtensions
    rw [h]

/-- C10 witness: a record lacking the StaysSearch hash yields the empty
hash, and a missing cache yields search/calendar/detail extensions with an
empty sha256Hash. -/
theorem C10_witness :
    ApiKeyExtractor.get_operation_hash
      (CacheBacking.record { api_key := "k".data, hashes := [], cached_at := 0 }) 5
      AirbnbClient.SEARCH_OPERATION = [] ∧
    AirbnbClient.searchExtensions CacheBacking.missing 5 = ⟨1, []⟩ ∧
    AirbnbClient.calendarExtensions CacheBacking.missing 5 = ⟨1, []⟩ ∧
    AirbnbClient.listingExtensions CacheBacking.missing 5 = ⟨1, []⟩ :=
  ⟨C10_empty_hash_fallback.2.2.1 5 _ _ rfl,
    C10_empty_hash_fallback.2.2.2.1 5 _ ((C10_empty_hash_fallback.1 5 _).1),
    C10_empty_hash_fallback.2.2.2.2.1 5 _ ((C10_empty_hash_fallback.1 5 _).1),
    C10_empty_hash_fallback.2.2.2.2.2 5 _ ((C10_empty_hash_fallback.1 5 _).1)⟩

/-- First result page of the C2 failing input: one listing and a non-null
next-page cursor. -/
def C2page : SearchPage :=
  { searchResults := ["AAA".data], nextPageCursor := some "cursor_page2".data }

/-- Fetch oracle for C2: every search_stays call would answer with C2page. -/
def C2fetch : Option (List Char) → Option SearchPage := fun _ => some C2page

/-- C2: evaluated at a response whose paginationInfo.nextPageCursor is
non-null, crawl_station still issues exactly one search_stays call, with no
cursor argument — there is no paging loop, no maximum page count, and the
cursor of the first page is never passed on (the repository's own tests
require a second call carrying that cursor). -/
theorem C2_no_pagination_in_crawl_station :
    SearchCrawler.crawl_station C2fetch = (some 1, [Option.none]) ∧
    C2page.nextPageCursor = some "cursor_page2".data ∧
    (SearchCrawler.crawl_station C2fetch).2.length = 1 := by
  exact ⟨rfl, rfl, rfl⟩

/-- Body that classifies as no block (contains the word error and is
shorter than 100 characters, so the skeleton rule does not fire) but is
not valid JSON. -/
def C6text : List Char := "error: not valid json".data

/-- JSON decoder oracle for C6 under which every body fails to parse. -/
def C6parse : List Char → Option Nat := fun _ => Option.none

/-- C6 counterexample: on an attempt whose block classification is none
and whose body fails to parse as JSON, the request loop has already
invoked report_success on the rate limiter (the success report precedes
json.loads), so a success IS recorded for that attempt, contrary to the
claim that no success is recorded and that report_success is invoked only
when the body parses. -/
theorem C6_counterexample :
    RateLimiter.detect_block 200 C6text = BlockType.none ∧
    (AirbnbClient.request C6parse (fun _ => AirbnbClient.HttpResult.ok 200 C6text)
      (fun _ => Option.none) 3).1 = Option.none ∧
    AirbnbClient.ClientAct.rlSuccess ∈
      (AirbnbClient.request C6parse (fun _ => AirbnbClient.HttpResult.ok 200 C6text)
        (fun _ => Option.none) 3).2 := by
  refine ⟨by decide, by decide, by decide⟩

/-- C6 (amended): when the block classification is none, the client reports
success to the rate limiter (and to the proxy pool when a proxy was used)
before parsing; on JSON parse failure it then additionally records a
failure on the rate limiter only, and the attempt is retried; the decoded
object is returned, with no failure recorded, exactly when the body parses
successfully. -/
theorem C6_amended {V : Type} (parse : List Char → Option V)
    (proxy : Option (List Char)) (status : Nat) (text : List Char)
    (hb : RateLimiter.detect_block status text = BlockType.none) :
    (parse text = Option.none →
      AirbnbClient.attemptStep parse proxy (AirbnbClient.HttpResult.ok status text) =
        (Option.none,
          [AirbnbClient.ClientAct.rlSuccess] ++
            (if proxy.isSome then [AirbnbClient.ClientAct.pmSuccess] else []) ++
            [AirbnbClient.ClientAct.rlFailure BlockType.none])) ∧
    (∀ v, parse text = some v →
      AirbnbClient.attemptStep parse proxy (AirbnbClient.HttpResult.ok status text) =
        (some v,
          [AirbnbClient.ClientAct.rlSuccess] ++
            (if proxy.isSome then [AirbnbClient.ClientAct.pmSuccess] else []))) ∧
    (∀ (resp : Nat → AirbnbClient.HttpResult) (proxyOf : Nat → Option (List Char))
        (i fuel : Nat) (acts : List AirbnbClient.ClientAct),
      AirbnbClient.attemptStep parse (proxyOf i) (resp i) = (Option.none, acts) →
      AirbnbClient.requestLoop parse resp proxyOf i (fuel + 1) =
        ((AirbnbClient.requestLoop parse resp proxyOf (i + 1) fuel).1,
          acts ++ (AirbnbClient.requestLoop parse resp proxyOf (i + 1) fuel).2)) := by
  refine ⟨?_, ?_, ?_⟩
  · intro hp
    simp [AirbnbClient.attemptStep, hb, hp]
  · intro v hp
    simp [AirbnbClient.attemptStep, hb, hp]
  · intro resp proxyOf i fuel acts hstep
    simp [AirbnbClient.requestLoop, hstep]

/-- C6 amended witness at the concrete C6 input (no proxy, status 200,
body C6text, decoder C6parse). -/
theorem C6_amended_witness :
    AirbnbClient.attemptStep C6parse Option.none
        (AirbnbClient.HttpResult.ok 200 C6text) =
      (Option.none,
        [AirbnbClient.ClientAct.rlSuccess] ++ [] ++
          [AirbnbClient.ClientAct.rlFailure BlockType.none]) :=
  (C6_amended C6parse Option.none 200 C6text (by decide)).1 rfl

lemma list_get?_set_self {α : Type} (l : List α) (i : Nat) (a : α) (h : i < l.length) :
    (l.set i a).get? i = some a := by
  simp [List.get?_eq_getElem?, List.getElem?_set_self, h]

lemma list_get?_lt {α : Type} (l : List α) (i : Nat) (a : α) (h : l.get? i = some a) :
    i < l.length := by
  rw [List.get?_eq_getElem?] at h
  exact (List.getElem?_eq_some.mp h).1

lemma countSum_set (ps : List ProxyState) (i : Nat) (p q : ProxyState)
    (h : ps.get? i = some q) :
    ProxyManager.countSum (ps.set i p) + q.request_count
      = ProxyManager.countSum ps + p.request_count := by
  induction ps generalizing i with
  | nil => simp at h
  | cons a tl ih =>
    cases i with
    | zero =>
      simp only [List.get?] at h
      injection h with h
      subst h
      simp [ProxyManager.countSum]
      omega
    | succ n =>
      simp only [List.get?] at h
      have := ih n h
      simp [ProxyManager.countSum, List.set] at this ⊢
      omega

lemma rotate_proxies (pm : ProxyManager) : pm.rotate.proxies = pm.proxies := by
  unfold ProxyManager.rotate
  split <;> rfl

lemma rotate_rpr (pm : ProxyManager) :
    pm.rotate.requests_per_rotate = pm.requests_per_rotate := by
  unfold ProxyManager.rotate
  split <;> rfl

lemma getProxyLoop_isSome (now : ℚ) :
    ∀ (fuel : Nat) (pm : ProxyManager) (attempts : Nat),
      0 < pm.requests_per_rotate →
      pm.proxies.length - attempts + ProxyManager.countSum pm.proxies < fuel →
      (ProxyManager.getProxyLoop now pm attempts fuel).isSome := by
  intro fuel
  induction fuel with
  | zero => intro pm attempts _ hm; omega
  | succ fuel ih =>
    intro pm attempts hpos hm
    by_cases hatt : attempts < pm.proxies.length
    · cases hidx : pm.proxies.get? pm.current_index with
      | none =>
        have hgelem := hidx
        rw [List.get?_eq_getElem?] at hgelem
        simp [ProxyManager.getProxyLoop, hatt, hgelem]
      | some proxy =>
        have hcount : (proxy.is_available now).1.request_count = proxy.request_count := by
          unfold ProxyState.is_available
          dsimp only
          split <;> rfl
        have hgelem := hidx
        rw [List.get?_eq_getElem?] at hgelem
        by_cases havail : (proxy.is_available now).2 = true
        · by_cases hthr : pm.requests_per_rotate ≤ (proxy.is_available now).1.request_count
          · simp only [ProxyManager.getProxyLoop, if_pos hatt, hidx, hgelem, havail, hthr,
              ite_true, if_true, List.set_set]
            apply ih
            · rw [rotate_rpr]
              exact hpos
            · rw [rotate_proxies]
              have hset := countSum_set pm.proxies pm.current_index
                { url := (proxy.is_available now).1.url, request_count := 0,
                  total_requests := (proxy.is_available now).1.total_requests,
                  blocked_count := (proxy.is_available now).1.blocked_count,
                  last_used := (proxy.is_available now).1.last_used,
                  cooldown_until := (proxy.is_available now).1.cooldown_until,
                  is_healthy := (proxy.is_available now).1.is_healthy }
                proxy hidx
              rw [hcount] at hthr
              dsimp only at hset
              simp only [List.length_set]
              omega
          · simp [ProxyManager.getProxyLoop, hatt, hgelem, havail, hthr]
        · simp only [Bool.not_eq_true] at havail
          simp only [ProxyManager.getProxyLoop, if_pos hatt, hidx, hgelem, havail,
            Bool.false_eq_true, ite_false, if_false, List.set_set]
          apply ih
          · rw [rotate_rpr]
            exact hpos
          · rw [rotate_proxies]
            have hset := countSum_set pm.proxies pm.current_index
              (proxy.is_available now).1 proxy hidx
            simp only [List.length_set]
            rw [hcount] at hset
            omega
    · simp [ProxyManager.getProxyLoop, hatt]

/-- C9: for every pool state (any proxies, window counts, health flags and
cooldown timestamps) and any wall-clock time, the get_proxy loop reaches
its exit — returning a proxy URL or nothing — within the fuel bound
enoughFuel (pool size + sum of window counters + 1), because the
rotate-threshold branch zeroes the examined proxy's window count while the
other looping branch consumes an attempt.  The positive rotate threshold
matches every configured tier (500 / 30 / 25) and the constructor default
(30). -/
theorem C9_get_proxy_terminates (pm : ProxyManager) (now : ℚ)
    (h : 0 < pm.requests_per_rotate) :
    (ProxyManager.getProxyLoop now pm 0 (ProxyManager.enoughFuel pm)).isSome := by
  apply getProxyLoop_isSome now _ pm 0 h
  unfold ProxyManager.enoughFuel
  omega

/-- C9 witness: a concrete two-proxy pool with rotate threshold 1 and one
window counter already at the threshold. -/
theorem C9_witness :
    0 < (ProxyManager.init ["p1".data, "p2".data] 1 300).requests_per_rotate ∧
    (ProxyManager.getProxyLoop 5 (ProxyManager.init ["p1".data, "p2".data] 1 300) 0
      (ProxyManager.enoughFuel (ProxyManager.init ["p1".data, "p2".data] 1 300))).isSome :=
  ⟨by decide,
    C9_get_proxy_terminates (ProxyManager.init ["p1".data, "p2".data] 1 300) 5 (by decide)⟩

/-- Every proxy in the list that is flagged healthy has a cooldown lying
strictly in the past of time t. -/
def cooldownRespected (ps : List ProxyState) (t : ℚ) : Prop :=
  ∀ p ∈ ps, p.is_healthy = true → p.cooldown_until < t

lemma cooldownRespected_mono (ps : List ProxyState) (t t' : ℚ) (hle : t ≤ t')
    (h : cooldownRespected ps t) : cooldownRespected ps t' :=
  fun p hp hh => lt_of_lt_of_le (h p hp hh) hle

lemma cooldownRespected_set (ps : List ProxyState) (i : Nat) (q : ProxyState) (t : ℚ)
    (h : cooldownRespected ps t) (hq : q.is_healthy = true → q.cooldown_until < t) :
    cooldownRespected (ps.set i q) t := by
  intro p hp hh
  rcases List.mem_or_eq_of_mem_set hp with hmem | rfl
  · exact h p hmem hh
  · exact hq hh

lemma is_available_fst_cooldown (proxy : ProxyState) (now : ℚ) :
    (proxy.is_available now).1.cooldown_until = proxy.cooldown_until := by
  unfold ProxyState.is_available
  dsimp only
  split <;> rfl

lemma is_available_fst_healthy (ps : List ProxyState) (now : ℚ) (proxy : ProxyState)
    (hmem : proxy ∈ ps) (h : cooldownRespected ps now) :
    (proxy.is_available now).1.is_healthy = true →
      (proxy.is_available now).1.cooldown_until < now := by
  by_cases hc : proxy.cooldown_until < now
  · intro _
    rw [is_available_fst_cooldown]
    exact hc
  · have he : (proxy.is_available now).1 = proxy := by
      unfold ProxyState.is_available
      dsimp only
      rw [if_neg hc]
    rw [he]
    exact h proxy hmem

lemma getProxyLoop_cooldown (now : ℚ) :
    ∀ (fuel : Nat) (pm : ProxyManager) (attempts : Nat),
      cooldownRespected pm.proxies now →
      ∀ (pmr : ProxyManager) (r : Option (List Char)),
        ProxyManager.getProxyLoop now pm attempts fuel = some (pmr, r) →
        cooldownRespected pmr.proxies now ∧
          ∀ url, r = some url →
            ∃ p, pmr.proxies.get? pmr.current_index = some p ∧
              p.url = url ∧ p.cooldown_until < now := by
  intro fuel
  induction fuel with
  | zero =>
    intro pm attempts _ pmr r heq
    simp [ProxyManager.getProxyLoop] at heq
  | succ fuel ih =>
    intro pm attempts hinv pmr r heq
    by_cases hatt : attempts < pm.proxies.length
    · rcases Option.eq_none_or_eq_some (pm.proxies.get? pm.current_index) with
        hidx | ⟨proxy, hidx⟩
      · have hgelem := hidx
        rw [List.get?_eq_getElem?] at hgelem
        simp only [ProxyManager.getProxyLoop, if_pos hatt, hidx, hgelem,
          Option.some.injEq, Prod.mk.injEq] at heq
        obtain ⟨rfl, rfl⟩ := heq
        exact ⟨hinv, fun url h => by cases h⟩
      ·
        have hmem : proxy ∈ pm.proxies := List.get?_mem hidx
        have hlt : pm.current_index < pm.proxies.length := list_get?_lt _ _ _ hidx
        have hgelem := hidx
        rw [List.get?_eq_getElem?] at hgelem
        have hsetInv : ∀ q : ProxyState,
            (q.is_healthy = true → q.cooldown_until < now) →
            cooldownRespected (pm.proxies.set pm.current_index q) now :=
          fun q hq => cooldownRespected_set pm.proxies pm.current_index q now hinv hq
        by_cases havail : (proxy.is_available now).2 = true
        · by_cases hthr : pm.requests_per_rotate ≤ (proxy.is_available now).1.request_count
          · simp only [ProxyManager.getProxyLoop, if_pos hatt, hidx, hgelem, havail, hthr,
              ite_true, if_true, List.set_set] at heq
            refine ih _ attempts ?_ pmr r heq
            rw [rotate_proxies]
            dsimp only
            refine hsetInv _ ?_
            intro hh
            exact is_available_fst_healthy pm.proxies now proxy hmem hinv hh
          · simp only [ProxyManager.getProxyLoop, if_pos hatt, hidx, hgelem, havail, hthr,
              ite_true, if_true, ite_false, if_false, List.set_set,
              Option.some.injEq, Prod.mk.injEq] at heq
            obtain ⟨rfl, rfl⟩ := heq
            constructor
            · dsimp only
              refine hsetInv _ ?_
              intro hh
              exact is_available_fst_healthy pm.proxies now proxy hmem hinv hh
            · intro url hurl
              dsimp only at hurl ⊢
              injection hurl with hurl
              refine ⟨_, list_get?_set_self _ _ _ (by simpa using hlt), ?_, ?_⟩
              · dsimp only
                exact hurl
              · dsimp only
                rw [is_available_fst_cooldown]
                have hav2 : (proxy.is_available now).1.is_healthy = true := havail
                have := is_available_fst_healthy pm.proxies now proxy hmem hinv hav2
                rw [is_available_fst_cooldown] at this
                exact this
        · simp only [Bool.not_eq_true] at havail
          simp only [ProxyManager.getProxyLoop, if_pos hatt, hidx, hgelem, havail,
            Bool.false_eq_true, ite_false, if_false, List.set_set] at heq
          refine ih _ (attempts + 1) ?_ pmr r heq
          rw [rotate_proxies]
          dsimp only
          refine hsetInv _ ?_
          intro hh
          exact is_available_fst_healthy pm.proxies now proxy hmem hinv hh
    · simp only [ProxyManager.getProxyLoop, if_neg hatt,
        Option.some.injEq, Prod.mk.injEq] at heq
      obtain ⟨rfl, rfl⟩ := heq
      exact ⟨hinv, fun url h => by cases h⟩

lemma report_blocked_inv (pm : ProxyManager) (t t' : ℚ) (hle : t ≤ t')
    (h : cooldownRespected pm.proxies t) :
    cooldownRespected (pm.report_blocked t').proxies t' := by
  have h' := cooldownRespected_mono pm.proxies t t' hle h
  unfold ProxyManager.report_blocked
  split
  · exact h'
  · rcases Option.eq_none_or_eq_some (pm.proxies.get? pm.current_index) with
      hidx | ⟨p, hidx⟩
    · rw [hidx]
      rw [rotate_proxies]
      exact h'
    · rw [hidx]
      dsimp only
      rw [rotate_proxies]
      dsimp only
      refine cooldownRespected_set pm.proxies pm.current_index _ t' h' ?_
      intro hh
      simp [ProxyState.mark_blocked] at hh

lemma get_proxy_inv (pm : ProxyManager) (t t' : ℚ) (hle : t ≤ t')
    (h : cooldownRespected pm.proxies t) :
    cooldownRespected (pm.get_proxy t').1.proxies t' := by
  have h' := cooldownRespected_mono pm.proxies t t' hle h
  unfold ProxyManager.get_proxy
  split
  · exact h'
  · rcases Option.eq_none_or_eq_some
      (ProxyManager.getProxyLoop t' pm 0 (ProxyManager.enoughFuel pm)) with
      hl | ⟨res, hl⟩
    · rw [hl]
      exact h'
    · obtain ⟨pmr, r⟩ := res
      rw [hl]
      exact (getProxyLoop_cooldown t' _ pm 0 h' pmr r hl).1

/-- Pool states reachable from construction through get_proxy and
report_blocked calls at nondecreasing positive wall-clock times (the
report_success operation is excluded: it restores the health flag of the
current proxy regardless of its cooldown). -/
inductive ReachableNB : ProxyManager → ℚ → Prop
  | init (proxy_urls : List (List Char)) (requests_per_rotate : Nat)
      (block_cooldown : ℚ) (t0 : ℚ) (h : 0 < t0) :
      ReachableNB (ProxyManager.init proxy_urls requests_per_rotate block_cooldown) t0
  | get (pm : ProxyManager) (t t' : ℚ) (hr : ReachableNB pm t) (hle : t ≤ t') :
      ReachableNB (pm.get_proxy t').1 t'
  | blocked (pm : ProxyManager) (t t' : ℚ) (hr : ReachableNB pm t) (hle : t ≤ t') :
      ReachableNB (pm.report_blocked t') t'

lemma reachableNB_inv (pm : ProxyManager) (t : ℚ) (h : ReachableNB pm t) :
    cooldownRespected pm.proxies t := by
  induction h with
  | init proxy_urls requests_per_rotate block_cooldown t0 h0 =>
    intro p hp hh
    simp [ProxyManager.init] at hp
    obtain ⟨u, hu, rfl⟩ := hp
    exact h0
  | get pm t t' hr hle ih => exact get_proxy_inv pm t t' hle ih
  | blocked pm t t' hr hle ih => exact report_blocked_inv pm t t' hle ih

/-- C5 (amended): for every pool state reachable by get_proxy and
report_blocked calls at nondecreasing positive wall-clock times — with
report_success excluded, since report_success marks the current proxy
healthy even during its cooldown — every get_proxy call either returns a
proxy whose cooldown has elapsed or returns nothing. -/
theorem C5_amended (pm : ProxyManager) (t now : ℚ) (hr : ReachableNB pm t)
    (hle : t ≤ now) (url : List Char)
    (hres : (pm.get_proxy now).2 = some url) :
    ∃ p, (pm.get_proxy now).1.proxies.get? (pm.get_proxy now).1.current_index
        = some p ∧ p.url = url ∧ p.cooldown_until < now := by
  have hinv := cooldownRespected_mono pm.proxies t now hle (reachableNB_inv pm t hr)
  unfold ProxyManager.get_proxy at hres ⊢
  by_cases hemp : pm.proxies.length = 0
  · rw [if_pos hemp] at hres
    cases hres
  · rw [if_neg hemp] at hres ⊢
    rcases Option.eq_none_or_eq_some
      (ProxyManager.getProxyLoop now pm 0 (ProxyManager.enoughFuel pm)) with
      hl | ⟨⟨pmr, r⟩, hl⟩
    · rw [hl] at hres
      cases hres
    · rw [hl] at hres ⊢
      simp only [Option.getD_some] at hres ⊢
      exact (getProxyLoop_cooldown now _ pm 0 hinv pmr r hl).2 url hres

/-- Single-proxy pool used by the C5 amended witness. -/
def C5pmW : ProxyManager := ProxyManager.init ["p1".data] 30 300

lemma C5pmW_get : (C5pmW.get_proxy 5).2 = some "p1".data := by
  norm_num [C5pmW, ProxyManager.init, ProxyManager.get_proxy,
    ProxyManager.getProxyLoop, ProxyManager.enoughFuel, ProxyManager.countSum,
    ProxyState.is_available]

/-- C5 amended witness: the fresh single-proxy pool at time 1, queried at
time 5, returns its proxy, whose cooldown (0) has elapsed. -/
theorem C5_amended_witness :
    ∃ p, (C5pmW.get_proxy 5).1.proxies.get? (C5pmW.get_proxy 5).1.current_index
        = some p ∧ p.url = "p1".data ∧ p.cooldown_until < 5 :=
  C5_amended C5pmW 1 5
    (ReachableNB.init ["p1".data] 30 300 1 (by norm_num)) (by norm_num)
    "p1".data C5pmW_get

/-- Pool state for the C5 counterexample: one proxy, blocked at time 100
(cooldown until 400), then resurrected by report_success. -/
def C5pmX : ProxyManager :=
  ((ProxyManager.init ["p1".data] 30 300).report_blocked 100).report_success

/-- C5 counterexample: the state C5pmX is reached by report_blocked at time
100 followed by report_success; at time 200 — while the sole proxy's
cooldown runs until 400 — get_proxy still returns that proxy, so get() can
return a proxy whose cooldown-until timestamp is in the future. -/
theorem C5_counterexample :
    (C5pmX.get_proxy 200).2 = some "p1".data ∧
    (C5pmX.get_proxy 200).1.proxies.map (fun p => p.cooldown_until) = [400] ∧
    ¬ ((400 : ℚ) < 200) := by
  refine ⟨?_, ?_, by norm_num⟩
  · norm_num [C5pmX, ProxyManager.init, ProxyManager.report_blocked,
      ProxyManager.report_success, ProxyManager.rotate, ProxyState.mark_blocked,
      ProxyManager.get_proxy, ProxyManager.getProxyLoop, ProxyManager.enoughFuel,
      ProxyManager.countSum, ProxyState.is_available]
  · norm_num [C5pmX, ProxyManager.init, ProxyManager.report_blocked,
      ProxyManager.report_success, ProxyManager.rotate, ProxyState.mark_blocked,
      ProxyManager.get_proxy, ProxyManager.getProxyLoop, ProxyManager.enoughFuel,
      ProxyManager.countSum, ProxyState.is_available]
